import Mathlib

/-!
Verification of `rhasspyasr_pocketsphinx/transcribe.py`, the Pocketsphinx
transcriber adapter.

The adapter is shallowly embedded as pure Lean functions.  External
collaborators (the `wave` WAV parser, the Pocketsphinx engine, the
filesystem) are abstracted into an `Env` of oracle functions; the
adapter's observable side effects (filesystem existence checks, decoder
construction) are made explicit as an event trace returned alongside the
result.  Python `float` durations and probabilities are modelled as `ℚ`;
Python byte strings as `List Nat`.
-/

namespace Sphinx

/-- A recognition hypothesis as returned by `decoder.hyp()`:
a text string (`hyp.hypstr`) and a log-probability (`hyp.prob`). -/
structure Hyp where
  hypstr : String
  prob : Int
  deriving Repr, DecidableEq

/-- The engine configuration built by `pocketsphinx.Decoder.default_config()`
followed by `set_string` calls.  Modelled as an association list of the
string options set by the adapter (the keys the adapter sets are pairwise
distinct, so appending is faithful). -/
abbrev DecoderConfig := List (String × String)

/-- `decoder_config.set_string(key, value)`. -/
def set_string (c : DecoderConfig) (key value : String) : DecoderConfig :=
  c ++ [(key, value)]

/-- The mutable state of a `pocketsphinx.Decoder` handle, as far as the
adapter observes it: the configuration it was built from, the raw audio
fed into the current utterance, and the hypothesis finalized by the last
`end_utt`. -/
structure DecoderState where
  config : DecoderConfig
  uttBuffer : List Nat
  finalHyp : Option Hyp
  deriving DecidableEq

/-- `pocketsphinx.Decoder(decoder_config)`: a fresh decoder with no
utterance in progress and no hypothesis yet. -/
def Decoder.new (c : DecoderConfig) : DecoderState :=
  { config := c, uttBuffer := [], finalHyp := none }

/-- `decoder.start_utt()`: begin a new utterance, discarding buffered audio. -/
def start_utt (d : DecoderState) : DecoderState :=
  { d with uttBuffer := [] }

/-- `decoder.process_raw(data, False, True)`: feed raw audio of the current
utterance (full-utterance mode). -/
def process_raw (d : DecoderState) (data : List Nat) : DecoderState :=
  { d with uttBuffer := d.uttBuffer ++ data }

/-- The result of parsing a WAV container with `wave.open`:
`getnframes()`, `getframerate()`, and the raw audio payload returned by
`readframes(getnframes())`. -/
structure WavInfo where
  nframes : Nat
  framerate : Nat
  audioData : List Nat
  deriving Repr, DecidableEq

/-- The external world the adapter runs against:
`wavParse` is the behaviour of the standard `wave` module on a byte
buffer (a parse error or the container's frame count, sample rate and
payload); `recognize` is the Pocketsphinx engine's deterministic
decoding of one complete utterance given the decoder configuration;
`logmathExp` is `decoder.get_logmath().exp`, converting a
log-probability to a probability; `fsExists` is `Path.exists`. -/
structure Env where
  wavParse : List Nat → Except String WavInfo
  recognize : DecoderConfig → List Nat → Option Hyp
  logmathExp : Int → ℚ
  fsExists : String → Bool

/-- `decoder.end_utt()`: finalize the utterance; the engine's best
hypothesis for the buffered audio becomes available via `hyp()`. -/
def end_utt (env : Env) (d : DecoderState) : DecoderState :=
  { d with finalHyp := env.recognize d.config d.uttBuffer }

/-- `decoder.hyp()`. -/
def DecoderState.hyp (d : DecoderState) : Option Hyp :=
  d.finalHyp

/-- The `rhasspyasr.Transcription` record. -/
structure Transcription where
  text : String
  likelihood : ℚ
  transcribe_seconds : ℚ
  wav_seconds : ℚ
  deriving Repr, DecidableEq

/-- Observable side effects of the adapter: a filesystem existence check
and its answer, or the construction of a Pocketsphinx decoder. -/
inductive Event where
  | fsExists (path : String) (answer : Bool)
  | buildDecoder
  deriving Repr, DecidableEq

/-- The `PocketsphinxTranscriber` instance: the five configuration
fields plus the lazily created decoder handle. -/
structure PocketsphinxTranscriber where
  acoustic_model : String
  dictionary : String
  language_model : String
  mllr_matrix : Option String
  debug : Bool
  decoder : Option DecoderState
  deriving DecidableEq

/-- `os.devnull` on POSIX. -/
def devnull : String := "/dev/null"

namespace PocketsphinxTranscriber

/-- `PocketsphinxTranscriber.__init__`: store the five configuration
fields and set `self.decoder = None`.  Returns the constructed instance
together with the trace of side effects it performed. -/
def init (acoustic_model dictionary language_model : String)
    (mllr_matrix : Option String) (debug : Bool) :
    PocketsphinxTranscriber × List Event :=
  ({ acoustic_model := acoustic_model
     dictionary := dictionary
     language_model := language_model
     mllr_matrix := mllr_matrix
     debug := debug
     decoder := none }, [])

/-- `PocketsphinxTranscriber.get_decoder`: build the engine configuration
(`-hmm`, `-dict`, `-lm`; `-logfn` to `os.devnull` unless debug; `-mllr`
when a matrix path was supplied and exists on disk) and construct the
decoder.  Returns the decoder together with the side-effect trace. -/
def get_decoder (env : Env) (t : PocketsphinxTranscriber) :
    DecoderState × List Event :=
  let c0 : DecoderConfig := []
  let c1 := set_string c0 "-hmm" t.acoustic_model
  let c2 := set_string c1 "-dict" t.dictionary
  let c3 := set_string c2 "-lm" t.language_model
  let c4 := if !t.debug then set_string c3 "-logfn" devnull else c3
  match t.mllr_matrix with
  | none => (Decoder.new c4, [Event.buildDecoder])
  | some m =>
      let ex := env.fsExists m
      let c5 := if ex then set_string c4 "-mllr" m else c4
      (Decoder.new c5, [Event.fsExists m ex, Event.buildDecoder])

/-- `PocketsphinxTranscriber.transcribe_wav`: lazily build the decoder,
parse the WAV container (a parse error propagates), compute the audio
duration, run one full `start_utt` / `process_raw` / `end_utt` cycle,
and return a `Transcription` when a hypothesis exists, `none` otherwise.
`elapsed` is the wall-clock time measured by `time.perf_counter` around
the decoding calls.  Returns the call's outcome, the updated instance,
and the side-effect trace. -/
def transcribe_wav (env : Env) (elapsed : ℚ) (t : PocketsphinxTranscriber)
    (wav_data : List Nat) :
    Except String (Option Transcription) × PocketsphinxTranscriber × List Event :=
  let (d0, trace) :=
    match t.decoder with
    | none => t.get_decoder env
    | some d => (d, [])
  match env.wavParse wav_data with
  | .error e => (.error e, { t with decoder := some d0 }, trace)
  | .ok info =>
      let wav_duration : ℚ := (info.nframes : ℚ) / (info.framerate : ℚ)
      let audio_data := info.audioData
      let d1 := start_utt d0
      let d2 := process_raw d1 audio_data
      let d3 := end_utt env d2
      let result :=
        match d3.hyp with
        | some h =>
            some { text := h.hypstr.trim
                   likelihood := env.logmathExp h.prob
                   transcribe_seconds := elapsed
                   wav_seconds := wav_duration }
        | none => none
      (.ok result, { t with decoder := some d3 }, trace)

end PocketsphinxTranscriber

/-- The decoder handle `transcribe_wav` operates on: the stored one when
present, otherwise the one `get_decoder` builds. -/
def currentDecoder (env : Env) (t : PocketsphinxTranscriber) : DecoderState :=
  match t.decoder with
  | none => (t.get_decoder env).1
  | some d => d

/-- The side effects a `transcribe_wav` call performs before parsing the
WAV: the decoder build when the handle is still absent, nothing otherwise. -/
def buildEvents (env : Env) (t : PocketsphinxTranscriber) : List Event :=
  match t.decoder with
  | none => (t.get_decoder env).2
  | some _ => []

/-- The `Transcription` record built in the `if hyp:` branch of
`transcribe_wav`. -/
def trFull (env : Env) (elapsed : ℚ) (h : Hyp) (info : WavInfo) : Transcription :=
  { text := h.hypstr.trim
    likelihood := env.logmathExp h.prob
    transcribe_seconds := elapsed
    wav_seconds := (info.nframes : ℚ) / (info.framerate : ℚ) }

/-- Unfolding lemma: on a WAV buffer the parser accepts, `transcribe_wav`
returns the mapped hypothesis, stores the decoder after its full
utterance cycle, and performs exactly the lazy-build side effects. -/
lemma transcribe_wav_ok (env : Env) (elapsed : ℚ) (t : PocketsphinxTranscriber)
    (wav : List Nat) (info : WavInfo) (hp : env.wavParse wav = .ok info) :
    t.transcribe_wav env elapsed wav =
      (.ok ((env.recognize (currentDecoder env t).config info.audioData).map
          (fun h => trFull env elapsed h info)),
       { t with decoder := some { config := (currentDecoder env t).config
                                  uttBuffer := info.audioData
                                  finalHyp := env.recognize
                                    (currentDecoder env t).config info.audioData } },
       buildEvents env t) := by
  cases ht : t.decoder <;>
    simp only [PocketsphinxTranscriber.transcribe_wav, currentDecoder, buildEvents,
      ht, hp, start_utt, process_raw, end_utt, DecoderState.hyp, List.nil_append] <;>
    cases env.recognize _ info.audioData <;>
    simp [trFull]

/-- Unfolding lemma: on a buffer the parser rejects, `transcribe_wav`
propagates the parse error, but the freshly built decoder is already
stored. -/
lemma transcribe_wav_err (env : Env) (elapsed : ℚ) (t : PocketsphinxTranscriber)
    (wav : List Nat) (e : String) (hp : env.wavParse wav = .error e) :
    t.transcribe_wav env elapsed wav =
      (.error e, { t with decoder := some (currentDecoder env t) }, buildEvents env t) := by
  cases ht : t.decoder <;>
    simp [PocketsphinxTranscriber.transcribe_wav, currentDecoder, buildEvents, ht, hp]

/-- A concrete environment used to witness the theorems: one recognized
buffer, one that yields no hypothesis, everything else failing to parse. -/
def envW : Env where
  wavParse bs :=
    if bs = [82, 73, 70, 70] then .ok ⟨32000, 16000, [1, 2, 3]⟩
    else if bs = [82, 73, 70, 71] then .ok ⟨8000, 16000, [9]⟩
    else .error "file does not start with RIFF id"
  recognize _ audio := if audio = [1, 2, 3] then some ⟨" turn on the light ", -2⟩ else none
  logmathExp p := if p < 0 then 1 / 2 else 1
  fsExists p := p = "/models/present.mllr"

/-- A fresh witness transcriber with an adaptation matrix that exists. -/
def tW : PocketsphinxTranscriber :=
  (PocketsphinxTranscriber.init "/models/am" "/models/dict.txt" "/models/lm.bin"
    (some "/models/present.mllr") false).1

/-- `get_decoder` always records exactly one decoder construction. -/
lemma buildDecoder_mem_get_decoder (env : Env) (t : PocketsphinxTranscriber) :
    Event.buildDecoder ∈ (t.get_decoder env).2 := by
  cases hm : t.mllr_matrix <;> simp [PocketsphinxTranscriber.get_decoder, hm]

/-- The witness environment's log-math conversion lands in `[0, 1]`. -/
lemma envW_exp_bounds : ∀ p : Int, 0 ≤ envW.logmathExp p ∧ envW.logmathExp p ≤ 1 := by
  intro p
  show 0 ≤ (if p < 0 then (1 : ℚ) / 2 else 1) ∧ (if p < 0 then (1 : ℚ) / 2 else 1) ≤ 1
  split <;> norm_num

/-- C1: when the WAV parses, `transcribe_wav` returns a `Transcription`
exactly when the decoder produced a hypothesis, and returns `none`
(absence inside a successful call, not an error) when it produced none. -/
theorem transcribe_wav_some_iff_hyp (env : Env) (elapsed : ℚ)
    (t : PocketsphinxTranscriber) (wav : List Nat) (info : WavInfo)
    (hp : env.wavParse wav = .ok info) :
    ((∃ tr, (t.transcribe_wav env elapsed wav).1 = .ok (some tr)) ↔
      (env.recognize (currentDecoder env t).config info.audioData).isSome)
    ∧ (env.recognize (currentDecoder env t).config info.audioData = none →
      (t.transcribe_wav env elapsed wav).1 = .ok none) := by
  rw [transcribe_wav_ok env elapsed t wav info hp]
  cases h : env.recognize (currentDecoder env t).config info.audioData <;> simp

/-- Witness for C1: a parsed buffer with no hypothesis yields `ok none`. -/
theorem transcribe_wav_some_iff_hyp_witness :
    (PocketsphinxTranscriber.transcribe_wav envW 1 tW [82, 73, 70, 71]).1 = .ok none :=
  (transcribe_wav_some_iff_hyp envW 1 tW [82, 73, 70, 71] ⟨8000, 16000, [9]⟩ rfl).2 rfl

/-- C2: any `Transcription` returned by `transcribe_wav` carries
`wav_seconds = frame count / sample rate`. -/
theorem transcribe_wav_wav_seconds (env : Env) (elapsed : ℚ)
    (t : PocketsphinxTranscriber) (wav : List Nat) (info : WavInfo)
    (tr : Transcription) (hp : env.wavParse wav = .ok info)
    (hres : (t.transcribe_wav env elapsed wav).1 = .ok (some tr)) :
    tr.wav_seconds = (info.nframes : ℚ) / (info.framerate : ℚ) := by
  rw [transcribe_wav_ok env elapsed t wav info hp] at hres
  simp only [Except.ok.injEq] at hres
  obtain ⟨h, _, htr⟩ := Option.map_eq_some'.mp hres
  rw [← htr]
  rfl

/-- Witness for C2: a 32000-frame, 16 kHz buffer gives two seconds. -/
theorem transcribe_wav_wav_seconds_witness :
    (PocketsphinxTranscriber.transcribe_wav envW 1 tW [82, 73, 70, 70]).1 =
      .ok (some (trFull envW 1 ⟨" turn on the light ", -2⟩ ⟨32000, 16000, [1, 2, 3]⟩))
    ∧ (trFull envW 1 ⟨" turn on the light ", -2⟩ ⟨32000, 16000, [1, 2, 3]⟩).wav_seconds = 2 := by
  refine ⟨rfl, ?_⟩
  have h := transcribe_wav_wav_seconds envW 1 tW [82, 73, 70, 70]
    ⟨32000, 16000, [1, 2, 3]⟩
    (trFull envW 1 ⟨" turn on the light ", -2⟩ ⟨32000, 16000, [1, 2, 3]⟩) rfl rfl
  rw [h]
  norm_num

/-- C3: a buffer the WAV parser rejects makes `transcribe_wav` fail with
that same parse error; it never returns a result or absence. -/
theorem transcribe_wav_parse_error_propagates (env : Env) (elapsed : ℚ)
    (t : PocketsphinxTranscriber) (wav : List Nat) (e : String)
    (hp : env.wavParse wav = .error e) :
    (t.transcribe_wav env elapsed wav).1 = .error e
    ∧ ∀ r : Option Transcription, (t.transcribe_wav env elapsed wav).1 ≠ .ok r := by
  rw [transcribe_wav_err env elapsed t wav e hp]
  exact ⟨rfl, fun r => by simp⟩

/-- Witness for C3: a junk buffer propagates the parser's error. -/
theorem transcribe_wav_parse_error_propagates_witness :
    (PocketsphinxTranscriber.transcribe_wav envW 1 tW [0]).1 =
      .error "file does not start with RIFF id"
    ∧ (PocketsphinxTranscriber.transcribe_wav envW 1 tW [0]).1 ≠ .ok none :=
  ⟨(transcribe_wav_parse_error_propagates envW 1 tW [0] _ rfl).1,
   (transcribe_wav_parse_error_propagates envW 1 tW [0] _ rfl).2 none⟩

/-- The configuration `get_decoder` builds, in closed form. -/
lemma get_decoder_eq (env : Env) (t : PocketsphinxTranscriber) :
    (t.get_decoder env).1 = Decoder.new
      ([("-hmm", t.acoustic_model), ("-dict", t.dictionary), ("-lm", t.language_model)]
        ++ (if t.debug then [] else [("-logfn", devnull)])
        ++ (match t.mllr_matrix with
            | none => []
            | some m => if env.fsExists m then [("-mllr", m)] else [])) := by
  rcases hm : t.mllr_matrix with _ | m <;> cases hd : t.debug <;>
    simp [PocketsphinxTranscriber.get_decoder, set_string, hm, hd] <;>
    cases hex : env.fsExists m <;> simp [hex]

/-- C4: the `-mllr` option is present in the built configuration exactly
when a matrix path was supplied and exists on disk, and a supplied but
absent path builds the same decoder as supplying no path at all. -/
theorem get_decoder_mllr_iff (env : Env) (t : PocketsphinxTranscriber) :
    (∀ m : String, ("-mllr", m) ∈ (t.get_decoder env).1.config ↔
        (t.mllr_matrix = some m ∧ env.fsExists m = true))
    ∧ (∀ m : String, t.mllr_matrix = some m → env.fsExists m = false →
        (t.get_decoder env).1 =
          (PocketsphinxTranscriber.get_decoder env { t with mllr_matrix := none }).1) := by
  constructor
  · intro m
    rw [get_decoder_eq]
    rcases hm : t.mllr_matrix with _ | m2
    · cases hd : t.debug <;> simp [Decoder.new, hm, hd, devnull]
    · cases hex : env.fsExists m2 <;> cases hd : t.debug <;>
        simp [Decoder.new, hm, hd, hex, devnull]
      · rintro rfl
        exact hex
      · rintro rfl
        exact hex
      · constructor
        · rintro rfl
          exact ⟨rfl, hex⟩
        · rintro ⟨rfl, _⟩
          rfl
      · constructor
        · rintro rfl
          exact ⟨rfl, hex⟩
        · rintro ⟨rfl, _⟩
          rfl
  · intro m hm hex
    rw [get_decoder_eq, get_decoder_eq]
    simp [hm, hex]

/-- Witness for C4: the existing matrix is set; an absent one is skipped
and the decoder equals the no-matrix decoder. -/
theorem get_decoder_mllr_iff_witness :
    ("-mllr", "/models/present.mllr") ∈ (tW.get_decoder envW).1.config
    ∧ (PocketsphinxTranscriber.get_decoder envW
          { tW with mllr_matrix := some "/models/absent.mllr" }).1 =
        (PocketsphinxTranscriber.get_decoder envW { tW with mllr_matrix := none }).1 :=
  ⟨((get_decoder_mllr_iff envW tW).1 "/models/present.mllr").mpr ⟨rfl, by decide⟩,
   (get_decoder_mllr_iff envW
      { tW with mllr_matrix := some "/models/absent.mllr" }).2
      "/models/absent.mllr" rfl (by decide)⟩

/-- C5: the decoder handle starts absent, is built exactly on the first
call, is reused (same configuration, no rebuild event) afterwards, and
the five configuration fields are never modified by a call. -/
theorem decoder_lazy_single_build (env : Env) (elapsed : ℚ)
    (t : PocketsphinxTranscriber) (wav : List Nat)
    (am di lm : String) (mi : Option String) (db : Bool) :
    (PocketsphinxTranscriber.init am di lm mi db).1.decoder = none
    ∧ (t.decoder = none →
        Event.buildDecoder ∈ (t.transcribe_wav env elapsed wav).2.2
        ∧ ((t.transcribe_wav env elapsed wav).2.1.decoder).isSome = true)
    ∧ (∀ d : DecoderState, t.decoder = some d →
        (t.transcribe_wav env elapsed wav).2.2 = []
        ∧ ∃ d2, (t.transcribe_wav env elapsed wav).2.1.decoder = some d2
            ∧ d2.config = d.config)
    ∧ (t.transcribe_wav env elapsed wav).2.1.acoustic_model = t.acoustic_model
    ∧ (t.transcribe_wav env elapsed wav).2.1.dictionary = t.dictionary
    ∧ (t.transcribe_wav env elapsed wav).2.1.language_model = t.language_model
    ∧ (t.transcribe_wav env elapsed wav).2.1.mllr_matrix = t.mllr_matrix
    ∧ (t.transcribe_wav env elapsed wav).2.1.debug = t.debug := by
  cases hp : env.wavParse wav with
  | error e =>
    rw [transcribe_wav_err env elapsed t wav e hp]
    refine ⟨rfl, fun hn => ⟨?_, rfl⟩, fun d hd => ⟨?_, currentDecoder env t, rfl, ?_⟩,
      rfl, rfl, rfl, rfl, rfl⟩
    · simp [buildEvents, hn, buildDecoder_mem_get_decoder]
    · simp [buildEvents, hd]
    · simp [currentDecoder, hd]
  | ok info =>
    rw [transcribe_wav_ok env elapsed t wav info hp]
    refine ⟨rfl, fun hn => ⟨?_, rfl⟩,
      fun d hd => ⟨?_, ⟨(currentDecoder env t).config, info.audioData,
        env.recognize (currentDecoder env t).config info.audioData⟩, rfl, ?_⟩,
      rfl, rfl, rfl, rfl, rfl⟩
    · simp [buildEvents, hn, buildDecoder_mem_get_decoder]
    · simp [buildEvents, hd]
    · simp [currentDecoder, hd]

/-- Witness for C5: the first call on a fresh instance records a build
and leaves a handle in place. -/
theorem decoder_lazy_single_build_witness :
    Event.buildDecoder ∈ (PocketsphinxTranscriber.transcribe_wav envW 1 tW [82, 73, 70, 70]).2.2
    ∧ ((PocketsphinxTranscriber.transcribe_wav envW 1 tW [82, 73, 70, 70]).2.1.decoder).isSome
        = true :=
  (decoder_lazy_single_build envW 1 tW [82, 73, 70, 70] "a" "b" "c" none false).2.1 rfl

/-- C6: assuming the engine's log-math conversion yields normalized
probabilities, every returned `Transcription` has likelihood in `[0, 1]`. -/
theorem likelihood_unit_interval (env : Env) (elapsed : ℚ)
    (t : PocketsphinxTranscriber) (wav : List Nat) (tr : Transcription)
    (hexp : ∀ p : Int, 0 ≤ env.logmathExp p ∧ env.logmathExp p ≤ 1)
    (hres : (t.transcribe_wav env elapsed wav).1 = .ok (some tr)) :
    0 ≤ tr.likelihood ∧ tr.likelihood ≤ 1 := by
  cases hp : env.wavParse wav with
  | error e =>
    rw [transcribe_wav_err env elapsed t wav e hp] at hres
    simp at hres
  | ok info =>
    rw [transcribe_wav_ok env elapsed t wav info hp] at hres
    simp only [Except.ok.injEq] at hres
    obtain ⟨h, _, htr⟩ := Option.map_eq_some'.mp hres
    rw [← htr]
    exact hexp h.prob

/-- Witness for C6: the recognized witness utterance has likelihood 1/2,
inside the unit interval. -/
theorem likelihood_unit_interval_witness :
    0 ≤ (trFull envW 1 ⟨" turn on the light ", -2⟩ ⟨32000, 16000, [1, 2, 3]⟩).likelihood
    ∧ (trFull envW 1 ⟨" turn on the light ", -2⟩ ⟨32000, 16000, [1, 2, 3]⟩).likelihood ≤ 1 :=
  likelihood_unit_interval envW 1 tW [82, 73, 70, 70]
    (trFull envW 1 ⟨" turn on the light ", -2⟩ ⟨32000, 16000, [1, 2, 3]⟩)
    envW_exp_bounds rfl

/-- C7: when the decoder produces a hypothesis, the returned record has
the whitespace-trimmed hypothesis text, the log-math conversion of its
log-probability, the measured decode time, and the WAV duration. -/
theorem transcription_text_likelihood (env : Env) (elapsed : ℚ)
    (t : PocketsphinxTranscriber) (wav : List Nat) (info : WavInfo) (h : Hyp)
    (hp : env.wavParse wav = .ok info)
    (hh : env.recognize (currentDecoder env t).config info.audioData = some h) :
    (t.transcribe_wav env elapsed wav).1 =
      .ok (some { text := h.hypstr.trim
                  likelihood := env.logmathExp h.prob
                  transcribe_seconds := elapsed
                  wav_seconds := (info.nframes : ℚ) / (info.framerate : ℚ) }) := by
  rw [transcribe_wav_ok env elapsed t wav info hp]
  simp [hh, trFull]

/-- Witness for C7: the recognized witness utterance is returned trimmed
with its converted probability. -/
theorem transcription_text_likelihood_witness :
    (PocketsphinxTranscriber.transcribe_wav envW 1 tW [82, 73, 70, 70]).1 =
      .ok (some { text := " turn on the light ".trim
                  likelihood := envW.logmathExp (-2)
                  transcribe_seconds := 1
                  wav_seconds := ((32000 : Nat) : ℚ) / ((16000 : Nat) : ℚ) }) :=
  transcription_text_likelihood envW 1 tW [82, 73, 70, 70]
    ⟨32000, 16000, [1, 2, 3]⟩ ⟨" turn on the light ", -2⟩ rfl rfl

/-- C8: a second call on the same instance with the same audio returns
the same optional result up to the measured decode time: text,
likelihood (and WAV duration) are unchanged. -/
theorem transcribe_wav_deterministic (env : Env) (el1 el2 : ℚ)
    (t : PocketsphinxTranscriber) (wav : List Nat) (info : WavInfo)
    (o : Option Transcription)
    (hp : env.wavParse wav = .ok info)
    (h1 : (t.transcribe_wav env el1 wav).1 = .ok o) :
    ((t.transcribe_wav env el1 wav).2.1.transcribe_wav env el2 wav).1 =
      .ok (o.map fun tr => { tr with transcribe_seconds := el2 }) := by
  rw [transcribe_wav_ok env el1 t wav info hp] at h1 ⊢
  simp only [Except.ok.injEq] at h1
  rw [transcribe_wav_ok env el2 _ wav info hp, ← h1]
  show Except.ok ((env.recognize (currentDecoder env t).config info.audioData).map
      fun h => trFull env el2 h info) = _
  cases env.recognize (currentDecoder env t).config info.audioData <;> simp [trFull]

/-- Witness for C8: repeating the recognized witness call with a
different elapsed time reproduces text and likelihood. -/
theorem transcribe_wav_deterministic_witness :
    ((PocketsphinxTranscriber.transcribe_wav envW 1 tW
        [82, 73, 70, 70]).2.1.transcribe_wav envW 5 [82, 73, 70, 70]).1 =
      .ok ((some (trFull envW 1 ⟨" turn on the light ", -2⟩ ⟨32000, 16000, [1, 2, 3]⟩)).map
        fun tr => { tr with transcribe_seconds := 5 }) :=
  transcribe_wav_deterministic envW 1 5 tW [82, 73, 70, 70]
    ⟨32000, 16000, [1, 2, 3]⟩
    (some (trFull envW 1 ⟨" turn on the light ", -2⟩ ⟨32000, 16000, [1, 2, 3]⟩)) rfl rfl

/-- C9 counterexample: construction with a supplied adaptation-matrix
path performs no filesystem existence check at all — its side-effect
trace is empty, so the matrix path is not checked at construction time
(the check happens in `get_decoder`). -/
theorem init_mllr_not_checked :
    (PocketsphinxTranscriber.init "/models/am" "/models/dict.txt" "/models/lm.bin"
        (some "/models/present.mllr") false).2 = []
    ∧ Event.fsExists "/models/present.mllr" true ∉
        (PocketsphinxTranscriber.init "/models/am" "/models/dict.txt" "/models/lm.bin"
          (some "/models/present.mllr") false).2
    ∧ Event.fsExists "/models/present.mllr" false ∉
        (PocketsphinxTranscriber.init "/models/am" "/models/dict.txt" "/models/lm.bin"
          (some "/models/present.mllr") false).2 :=
  ⟨rfl, by simp [PocketsphinxTranscriber.init], by simp [PocketsphinxTranscriber.init]⟩

/-- C9 amended: construction performs no I/O and no validation — it
stores the five configuration fields, sets the decoder handle to absent,
and its side-effect trace is empty for every input, the adaptation
matrix included. -/
theorem init_stores_fields_only (am di lm : String) (mi : Option String) (db : Bool) :
    PocketsphinxTranscriber.init am di lm mi db =
      ({ acoustic_model := am, dictionary := di, language_model := lm,
         mllr_matrix := mi, debug := db, decoder := none }, []) := rfl

/-- C10: if the first call's WAV parse fails, the error propagates but
the freshly built decoder is already stored, and a subsequent call
performs no rebuild (its side-effect trace is empty). -/
theorem decoder_persists_after_parse_error (env : Env) (el1 el2 : ℚ)
    (t : PocketsphinxTranscriber) (wav wav2 : List Nat) (e : String)
    (hn : t.decoder = none) (hp : env.wavParse wav = .error e) :
    (t.transcribe_wav env el1 wav).1 = .error e
    ∧ (t.transcribe_wav env el1 wav).2.1.decoder = some (t.get_decoder env).1
    ∧ Event.buildDecoder ∈ (t.transcribe_wav env el1 wav).2.2
    ∧ ((t.transcribe_wav env el1 wav).2.1.transcribe_wav env el2 wav2).2.2 = [] := by
  rw [transcribe_wav_err env el1 t wav e hp]
  refine ⟨rfl, ?_, ?_, ?_⟩
  · simp [currentDecoder, hn]
  · simp [buildEvents, hn, buildDecoder_mem_get_decoder]
  · cases hp2 : env.wavParse wav2 with
    | error e2 =>
      rw [transcribe_wav_err env el2 _ wav2 e2 hp2]
      simp [buildEvents]
    | ok info2 =>
      rw [transcribe_wav_ok env el2 _ wav2 info2 hp2]
      simp [buildEvents]

/-- Witness for C10: a junk first buffer leaves the decoder built; the
second call records no build. -/
theorem decoder_persists_after_parse_error_witness :
    (PocketsphinxTranscriber.transcribe_wav envW 1 tW [0]).1 =
      .error "file does not start with RIFF id"
    ∧ (PocketsphinxTranscriber.transcribe_wav envW 1 tW [0]).2.1.decoder =
        some (tW.get_decoder envW).1
    ∧ Event.buildDecoder ∈ (PocketsphinxTranscriber.transcribe_wav envW 1 tW [0]).2.2
    ∧ ((PocketsphinxTranscriber.transcribe_wav envW 1 tW
          [0]).2.1.transcribe_wav envW 2 [0]).2.2 = [] :=
  decoder_persists_after_parse_error envW 1 2 tW [0] [0] _ rfl rfl

end Sphinx
